import Mathlib

/-!
# Verification of the COD fraud-detection ML service control plane

A shallow embedding, in Lean 4, of the model-lifecycle control plane of the
`ml-service` Python package: feature-schema mapping (`pipeline/feature_map.py`),
prediction serving (`api/predict.py`), the artifact store
(`utils/model_manager.py`), the drift detector (`pipeline/drift_detector.py`)
and the retrain scheduler (`pipeline/scheduler.py`).

Modelling conventions:
* Python floats are embedded as exact rationals (`ℚ`); Python's `round(x, n)`
  (round-half-to-even) is embedded as `pyRound n` over `ℚ`.
* Python dicts are embedded as association lists (`List (String × α)`) with the
  insertion-order update semantics of CPython dicts (`dictSet`, `dictGet`).
* Timestamps are embedded as whole seconds since the epoch (`ℤ`);
  `timedelta.days` is floor division of the difference by 86400 (`Int.fdiv`).
* Side effects (logging) are dropped; functions that can raise return `Except`.
-/

/-- Lookup in a Python dict modelled as an association list (`d[k]` / `k in d`). -/
def dictGet (d : List (String × α)) (k : String) : Option α :=
  (d.find? (fun p => p.1 = k)).map (·.2)

/-- Key membership in a Python dict (`k in d`). -/
def containsKey (d : List (String × α)) (k : String) : Bool :=
  d.any (fun p => p.1 = k)

/-- `d[k] = v` on a CPython dict: update in place if the key exists, otherwise
append at the end (insertion order preserved). -/
def dictSet (d : List (String × α)) (k : String) (v : α) : List (String × α) :=
  if containsKey d k then
    d.map (fun p => if p.1 = k then (k, v) else p)
  else
    d ++ [(k, v)]

/-- Round a rational to the nearest integer, ties to even
(the rounding mode of Python's builtin `round`). -/
def roundHalfEven (q : ℚ) : ℤ :=
  let f : ℤ := ⌊q⌋
  let frac : ℚ := q - f
  if frac < 1/2 then f
  else if 1/2 < frac then f + 1
  else if f % 2 = 0 then f else f + 1

/-- Embedding of Python's `round(x, nd)` over exact rationals. -/
def pyRound (nd : ℕ) (q : ℚ) : ℚ :=
  (roundHalfEven (q * (10 : ℚ) ^ nd) : ℚ) / (10 : ℚ) ^ nd

/-! ## RetrainScheduler (`pipeline/scheduler.py`)

`should_retrain` consults `datetime.now(timezone.utc)` and parses the
`last_trained_at` ISO string with `datetime.fromisoformat`.  The embedding
passes `now` explicitly (seconds since epoch) and summarises the parse of
`last_trained_at` by an inductive: the Python `None`/empty-string falsy case,
the case where `fromisoformat` (or the aware−naive subtraction) raises
`ValueError`/`TypeError` (caught by the `except` at scheduler.py:75), and the
successfully parsed timestamp. -/

/-- The `last_trained_at` argument of `should_retrain` after parsing. -/
inductive LastTrainedAt
  /-- `None` or `""`: falsy, the scheduled block is skipped (scheduler.py:59). -/
  | absent
  /-- A truthy string on which the `try` block raises (scheduler.py:75-76). -/
  | unparsable
  /-- A string parsing to this UTC timestamp (seconds since epoch). -/
  | parsed (t : ℤ)
deriving DecidableEq

/-- Configuration fields of `RetrainScheduler.__init__` (scheduler.py:28-34). -/
structure RetrainScheduler where
  retrain_interval_days : ℕ := 7
  min_new_orders : ℕ := 200
deriving DecidableEq

/-- Result dict of `RetrainScheduler.should_retrain` (scheduler.py:88-94). -/
structure RetrainDecision where
  should_retrain : Bool
  trigger : Option String
  reasons : List String
  checked_at : ℤ
  new_orders : ℕ
deriving DecidableEq

/-- Reason string appended when the scheduled trigger fires (scheduler.py:66-69). -/
def scheduledFiredMsg (daysSince : ℤ) (newOrders : ℕ) : String :=
  toString daysSince ++ " days since last training, " ++ toString newOrders
    ++ " new orders available"

/-- Reason string appended when the interval has elapsed but the order minimum
has not been met (scheduler.py:71-74). -/
def scheduledShortfallMsg (daysSince : ℤ) (newOrders minOrders : ℕ) : String :=
  "Scheduled retrain due (" ++ toString daysSince ++ " days) but only "
    ++ toString newOrders ++ "/" ++ toString minOrders ++ " new orders"

/-- Reason string appended when the volume trigger fires (scheduler.py:81-83). -/
def volumeFiredMsg (newOrders : ℕ) : String :=
  "Large volume of new data: " ++ toString newOrders ++ " orders"

/-- `RetrainScheduler.should_retrain` (scheduler.py:36-100).  `drift_reasons`
models the Python `Optional[List[str]]` with `None` collapsed to `[]` (both are
falsy for the `or` at scheduler.py:56).  `now` is the value of
`datetime.now(timezone.utc)` in seconds. -/
def RetrainScheduler.shouldRetrain (self : RetrainScheduler)
    (drift_should_retrain : Bool) (drift_reasons : List String)
    (new_orders_since_last_train : ℕ) (last_trained_at : LastTrainedAt)
    (now : ℤ) : RetrainDecision :=
  -- 1. Drift-based trigger (highest priority)
  let st1 : Option String × List String :=
    if drift_should_retrain then
      (some "drift", if drift_reasons = [] then ["Drift detected"] else drift_reasons)
    else (none, [])
  -- 2. Scheduled retrain (weekly by default)
  let st2 : Option String × List String :=
    match last_trained_at, st1.1 with
    | .parsed t, none =>
        let daysSince : ℤ := Int.fdiv (now - t) 86400
        if daysSince ≥ (self.retrain_interval_days : ℤ) then
          if new_orders_since_last_train ≥ self.min_new_orders then
            (some "scheduled",
             st1.2 ++ [scheduledFiredMsg daysSince new_orders_since_last_train])
          else
            (none,
             st1.2 ++ [scheduledShortfallMsg daysSince new_orders_since_last_train
                        self.min_new_orders])
        else (none, st1.2)
    | _, _ => st1
  -- 3. Volume-based trigger (lots of new data)
  let st3 : Option String × List String :=
    if st2.1 = none ∧ new_orders_since_last_train ≥ self.min_new_orders * 5 then
      (some "volume", st2.2 ++ [volumeFiredMsg new_orders_since_last_train])
    else st2
  let finalReasons :=
    if st3.2 = [] then ["No retrain triggers fired"] else st3.2
  { should_retrain := st3.1.isSome
    trigger := st3.1
    reasons := finalReasons
    checked_at := now
    new_orders := new_orders_since_last_train }

/-! ## Scheduler claims -/

/-- The shortfall reason emitted by the scheduled trigger never coincides with
the default "No retrain triggers fired" entry (their first characters differ). -/
lemma shortfallMsg_ne_default (d : ℤ) (n m : ℕ) :
    scheduledShortfallMsg d n m ≠ "No retrain triggers fired" := by
  intro h
  have h2 := congrArg String.data h
  rw [scheduledShortfallMsg] at h2
  simp only [String.data_append] at h2
  simp at h2

/-- Claim C3: whenever the drift subsystem reports `shouldRetrain = true`, the
decision returned by `RetrainScheduler.should_retrain` has `trigger = "drift"`
and `should_retrain = true`, regardless of `last_trained_at` and
`new_orders_since_last_train`: the scheduled-interval and volume triggers are
never evaluated once the drift trigger has fired. -/
theorem claim_C3 (s : RetrainScheduler) (dr : List String) (n : ℕ)
    (lt : LastTrainedAt) (now : ℤ) :
    (s.shouldRetrain true dr n lt now).trigger = some "drift" ∧
    (s.shouldRetrain true dr n lt now).should_retrain = true := by
  unfold RetrainScheduler.shouldRetrain
  cases lt <;> simp

/-- Claim C4, counterexample: with the drift trigger silent, `newOrders = 1200`,
`minNewOrders = 200` (the default) and `last_trained_at` ten days in the past
(interval 7 days), the returned trigger is `"scheduled"`, not `"volume"` — the
scheduled trigger is evaluated first and wins, refuting "trigger = volume for
every value of last_trained_at". -/
theorem claim_C4_counterexample :
    (RetrainScheduler.shouldRetrain {} false [] 1200 (.parsed 0) 864000).trigger
        = some "scheduled" ∧
    ¬ (RetrainScheduler.shouldRetrain {} false [] 1200 (.parsed 0) 864000).trigger
        = some "volume" := by
  constructor
  · rfl
  · decide

/-- Claim C4, amended: when the drift trigger did not fire and the new-order
count is at least 5× the configured minimum, the decision always has
`should_retrain = true`; its trigger is `"volume"` unless `last_trained_at`
parses to a timestamp whose elapsed whole days meet the retrain interval, in
which case the scheduled trigger fires first and the trigger is `"scheduled"`. -/
theorem claim_C4 (s : RetrainScheduler) (dr : List String) (n : ℕ)
    (lt : LastTrainedAt) (now : ℤ)
    (hvol : n ≥ s.min_new_orders * 5) :
    (s.shouldRetrain false dr n lt now).should_retrain = true ∧
    ((s.shouldRetrain false dr n lt now).trigger = some "scheduled" ∨
     (s.shouldRetrain false dr n lt now).trigger = some "volume") ∧
    ((s.shouldRetrain false dr n lt now).trigger = some "scheduled" ↔
      ∃ t, lt = .parsed t ∧ Int.fdiv (now - t) 86400 ≥ (s.retrain_interval_days : ℤ)) := by
  have hmin : s.min_new_orders ≤ n := by omega
  have hvol' : s.min_new_orders * 5 ≤ n := hvol
  unfold RetrainScheduler.shouldRetrain
  cases lt with
  | absent => simp [hvol']
  | unparsable => simp [hvol']
  | parsed t =>
      by_cases hd : (s.retrain_interval_days : ℤ) ≤ Int.fdiv (now - t) 86400
      · simp [hd, hmin]
      · simp [hd, hvol']

/-- Witness for `claim_C4` at `newOrders = 1200`, `minNewOrders = 200`,
`last_trained_at` absent. -/
theorem claim_C4_witness :
    1200 ≥ ({} : RetrainScheduler).min_new_orders * 5 ∧
    (RetrainScheduler.shouldRetrain {} false [] 1200 .absent 0).should_retrain = true :=
  ⟨by decide, (claim_C4 {} [] 1200 .absent 0 (by decide)).1⟩

/-- Claim C9: when the drift trigger did not fire, the elapsed whole days since
`last_trained_at` meet the retrain interval, and the new-order count is below
both the minimum and 5× the minimum, the decision has `should_retrain = false`
and `trigger = none`, and its reasons list is exactly the order-count-shortfall
entry — the default "No retrain triggers fired" entry does not appear. -/
theorem claim_C9 (s : RetrainScheduler) (dr : List String) (n : ℕ) (t now : ℤ)
    (hdays : Int.fdiv (now - t) 86400 ≥ (s.retrain_interval_days : ℤ))
    (hlt : n < s.min_new_orders)
    (hvol : n < s.min_new_orders * 5) :
    (s.shouldRetrain false dr n (.parsed t) now).should_retrain = false ∧
    (s.shouldRetrain false dr n (.parsed t) now).trigger = none ∧
    (s.shouldRetrain false dr n (.parsed t) now).reasons
      = [scheduledShortfallMsg (Int.fdiv (now - t) 86400) n s.min_new_orders] ∧
    "No retrain triggers fired" ∉ (s.shouldRetrain false dr n (.parsed t) now).reasons := by
  have h1 : ¬ (s.min_new_orders ≤ n) := by omega
  have h2 : ¬ (s.min_new_orders * 5 ≤ n) := by omega
  have hd : ((s.retrain_interval_days : ℤ) ≤ Int.fdiv (now - t) 86400) := hdays
  unfold RetrainScheduler.shouldRetrain
  simp [h1, h2, hd,
    Ne.symm (shortfallMsg_ne_default (Int.fdiv (now - t) 86400) n s.min_new_orders)]

/-- Witness for `claim_C9` at `newOrders = 150`, `minNewOrders = 200`,
`daysSince = 10`, `retrainIntervalDays = 7`. -/
theorem claim_C9_witness :
    Int.fdiv (864000 - 0) 86400 ≥ (({} : RetrainScheduler).retrain_interval_days : ℤ) ∧
    (RetrainScheduler.shouldRetrain {} false [] 150 (.parsed 0) 864000).should_retrain
      = false :=
  ⟨by decide, (claim_C9 {} [] 150 0 864000 (by decide) (by decide) (by decide)).1⟩

/-! ## PredictionEngine (`api/predict.py`)

The learning model is an external collaborator: `ModelArtifact.model` is
embedded as an abstract scoring function returning the probability vector for
one input row (`predict_proba(X)[0]` at predict.py:55).  The SHAP explainer is
likewise external: its per-feature attribution vector for the row (or `none`
when `shap` is unavailable or raises, predict.py:192-197) is an input of the
embedding.  `joblib`/numpy marshalling and logging are dropped. -/

/-- The external learning-model collaborator: `predict_proba` maps one aligned
feature row to its class-probability vector. -/
structure MLModel where
  predict_proba : List ℚ → List ℚ

/-- `ModelArtifact` (model_manager.py:28-38).  `optimal_threshold` is not a
declared dataclass field: it models the dynamic Python attribute read by
`getattr(artifact, "optimal_threshold", 0.5)` at predict.py:64, which is absent
(`none`) on every artifact built by `load_model`. -/
structure ModelArtifact where
  model : MLModel
  version : String
  feature_names : List String
  metrics : List (String × ℚ) := []
  trained_at : String := ""
  training_samples : ℕ := 0
  optimal_threshold : Option ℚ := none

/-- `_align_features` (predict.py:96-129): one pass over `expected_names`,
appending `raw_features[name]` when present and `0.0` otherwise; the second
component accumulates the missing names (used only for logging). -/
def align_features (expected_names : List String) (raw_features : List (String × ℚ)) :
    List ℚ :=
  (expected_names.foldl
    (fun (acc : List ℚ × List String) name =>
      match dictGet raw_features name with
      | some v => (acc.1 ++ [v], acc.2)
      | none => (acc.1 ++ [(0 : ℚ)], acc.2 ++ [name]))
    ([], [])).1

/-- `_calculate_confidence` (predict.py:132-142). -/
def _calculate_confidence (probability : ℚ) (threshold : ℚ) : ℚ :=
  |probability - threshold| / max threshold (1 - threshold)

/-- `pyRound` is the identity on rationals that are already exact multiples of
`10 ^ (-nd)`. -/
lemma pyRound_eq_self (nd : ℕ) (q : ℚ) (z : ℤ) (hz : q * 10 ^ nd = (z : ℚ)) :
    pyRound nd q = q := by
  rw [pyRound, roundHalfEven, hz]
  rw [Int.floor_intCast]
  norm_num
  rw [div_eq_iff (by positivity : ((10:ℚ) ^ nd) ≠ 0)]
  exact hz.symm

/-- One entry of the `top_factors` list (predict.py:181-186). -/
structure TopFactor where
  feature : String
  value : ℚ
  impact : ℚ
  direction : String
deriving DecidableEq

/-- `_compute_shap_factors` (predict.py:145-197) after the external explainer
returned the attribution vector `sv` for class 1 (`none` = `shap` missing or
raising, giving `[]`): keep features with `|attribution| ≥ 0.01`, sort by
rounded absolute impact descending (Python's stable `list.sort` with
`reverse=True`), truncate to 8. -/
def _compute_shap_factors (artifact : ModelArtifact) (ordered_values : List ℚ)
    (sv : Option (List ℚ)) : List TopFactor :=
  match sv with
  | none => []
  | some sv =>
      let factors := (List.range artifact.feature_names.length).filterMap fun i =>
        let name := artifact.feature_names.getD i ""
        let impact := sv.getD i 0
        if |impact| < 1/100 then none
        else some
          { feature := name
            value := pyRound 4 (ordered_values.getD i 0)
            impact := pyRound 4 |impact|
            direction := if impact > 0 then "increases_risk" else "decreases_risk" }
      (factors.mergeSort (fun a b => decide (b.impact ≤ a.impact))).take 8

/-- The class-1 probability extraction of predict.py:55-57 (`probabilities[1]`
when the vector has more than one entry, else `probabilities[0]`; out-of-range
indexing embedded as default `0`). -/
def rto_probability_of (artifact : ModelArtifact) (ordered_values : List ℚ) : ℚ :=
  let probabilities := artifact.model.predict_proba ordered_values
  if probabilities.length > 1 then probabilities.getD 1 0 else probabilities.getD 0 0

/-- The result dict of `predict` (predict.py:72-79). -/
structure PredictionResult where
  rto_probability : ℚ
  confidence : ℚ
  model_version : String
  prediction_time_ms : ℚ
  top_factors : List TopFactor
  optimal_threshold : ℚ
deriving DecidableEq

/-- `predict` (predict.py:28-89).  `elapsed_ms` stands for the measured
wall-clock time; the `AttributeError` fallback at predict.py:58-61 is dead in
the embedding because `MLModel` always provides `predict_proba`. -/
def predict (artifact : ModelArtifact) (features : List (String × ℚ))
    (sv : Option (List ℚ)) (elapsed_ms : ℚ) : PredictionResult :=
  let ordered_values := align_features artifact.feature_names features
  let rto_prob := rto_probability_of artifact ordered_values
  let threshold := (artifact.optimal_threshold).getD (1/2)
  let confidence := _calculate_confidence rto_prob threshold
  let top_factors := _compute_shap_factors artifact ordered_values sv
  { rto_probability := pyRound 6 rto_prob
    confidence := pyRound 6 confidence
    model_version := artifact.version
    prediction_time_ms := pyRound 3 elapsed_ms
    top_factors := top_factors
    optimal_threshold := pyRound 4 threshold }

/-! ## Prediction claims -/

/-- Concrete artifact for the C1 scenario: `optimalThreshold = 0.4` and a model
scoring every row at probability 0.4 for class 1. -/
def artifactV1p04 : ModelArtifact :=
  { model := ⟨fun _ => [3/5, 2/5]⟩
    version := "v1"
    feature_names := ["is_cod", "order_amount", "order_hour"]
    optimal_threshold := some (2/5) }

/-- Concrete artifact for the C1 scenario: `optimalThreshold = 0.4` and a model
scoring every row at probability 0.7 for class 1. -/
def artifactV1p07 : ModelArtifact :=
  { model := ⟨fun _ => [3/10, 7/10]⟩
    version := "v1"
    feature_names := ["is_cod", "order_amount", "order_hour"]
    optimal_threshold := some (2/5) }

/-- Claim C1: for every prediction, the confidence returned by `predict` is
(the 6-digit rounding of) `|p − threshold| / max(threshold, 1 − threshold)`
where `threshold` is the artifact's stored optimal threshold, defaulting to 0.5
exactly when the artifact has none; with `optimalThreshold = 0.4`, probability
0.4 yields confidence 0.0 and probability 0.7 yields confidence 0.3/0.6 = 0.5. -/
theorem claim_C1 :
    (∀ (a : ModelArtifact) (features : List (String × ℚ)) (sv : Option (List ℚ)) (e : ℚ),
      (predict a features sv e).confidence
        = pyRound 6 (_calculate_confidence
            (rto_probability_of a (align_features a.feature_names features))
            ((a.optimal_threshold).getD (1/2)))) ∧
    (predict artifactV1p04 [("order_amount", 4500)] none 0).rto_probability = 2/5 ∧
    (predict artifactV1p04 [("order_amount", 4500)] none 0).confidence = 0 ∧
    (predict artifactV1p07 [("order_amount", 4500)] none 0).rto_probability = 7/10 ∧
    (predict artifactV1p07 [("order_amount", 4500)] none 0).confidence = 1/2 := by
  have hr04 : rto_probability_of artifactV1p04
      (align_features artifactV1p04.feature_names [("order_amount", 4500)]) = 2/5 := by
    simp [rto_probability_of, artifactV1p04]
  have hr07 : rto_probability_of artifactV1p07
      (align_features artifactV1p07.feature_names [("order_amount", 4500)]) = 7/10 := by
    simp [rto_probability_of, artifactV1p07]
  refine ⟨fun a features sv e => rfl, ?_, ?_, ?_, ?_⟩
  · show pyRound 6 (rto_probability_of artifactV1p04
        (align_features artifactV1p04.feature_names [("order_amount", 4500)])) = 2/5
    rw [hr04]
    exact pyRound_eq_self 6 (2/5) 400000 (by norm_num)
  · show pyRound 6 (_calculate_confidence
        (rto_probability_of artifactV1p04
          (align_features artifactV1p04.feature_names [("order_amount", 4500)]))
        ((artifactV1p04.optimal_threshold).getD (1/2))) = 0
    rw [hr04, show (artifactV1p04.optimal_threshold).getD (1/2) = 2/5 from rfl]
    rw [show _calculate_confidence (2/5) (2/5) = 0 by simp [_calculate_confidence]]
    exact pyRound_eq_self 6 0 0 (by norm_num)
  · show pyRound 6 (rto_probability_of artifactV1p07
        (align_features artifactV1p07.feature_names [("order_amount", 4500)])) = 7/10
    rw [hr07]
    exact pyRound_eq_self 6 (7/10) 700000 (by norm_num)
  · show pyRound 6 (_calculate_confidence
        (rto_probability_of artifactV1p07
          (align_features artifactV1p07.feature_names [("order_amount", 4500)]))
        ((artifactV1p07.optimal_threshold).getD (1/2))) = 1/2
    rw [hr07, show (artifactV1p07.optimal_threshold).getD (1/2) = 2/5 from rfl]
    have hc : _calculate_confidence (7/10) (2/5) = 1/2 := by
      rw [_calculate_confidence, show (7:ℚ)/10 - 2/5 = 3/10 by norm_num,
        abs_of_pos (by norm_num : (0:ℚ) < 3/10),
        show max ((2:ℚ)/5) (1 - 2/5) = 3/5 by norm_num]
      norm_num
    rw [hc]
    exact pyRound_eq_self 6 (1/2) 500000 (by norm_num)

/-- The fold inside `align_features`, run from any accumulator, appends exactly
one value per expected name: the raw value when present, `0.0` otherwise. -/
lemma align_features_loop (expected : List String) (raw : List (String × ℚ))
    (acc : List ℚ) (miss : List String) :
    (expected.foldl
      (fun (acc : List ℚ × List String) name =>
        match dictGet raw name with
        | some v => (acc.1 ++ [v], acc.2)
        | none => (acc.1 ++ [(0 : ℚ)], acc.2 ++ [name]))
      (acc, miss)).1
      = acc ++ expected.map (fun n => (dictGet raw n).getD 0) := by
  induction expected generalizing acc miss with
  | nil => simp
  | cons x xs ih =>
      cases h : dictGet raw x <;> simp [h, ih, List.append_assoc]

/-- `align_features` is pointwise lookup-with-default in canonical order. -/
lemma align_features_eq_map (expected : List String) (raw : List (String × ℚ)) :
    align_features expected raw = expected.map (fun n => (dictGet raw n).getD 0) := by
  rw [align_features]
  simpa using align_features_loop expected raw [] []

/-- Claim C6: `align` totally (no exception) returns a vector whose length is
the number of expected names, whose `i`-th entry is the raw map's value at the
`i`-th expected name when present and `0.0` otherwise; consequently the result
depends only on the raw map's lookups at the expected names — it is unaffected
by key order and by extra keys. -/
theorem claim_C6 (expected : List String) (raw : List (String × ℚ)) :
    (align_features expected raw).length = expected.length ∧
    (∀ i : ℕ, (align_features expected raw).get? i
        = (expected.get? i).map (fun n => (dictGet raw n).getD 0)) ∧
    (∀ raw' : List (String × ℚ),
      (∀ n ∈ expected, dictGet raw' n = dictGet raw n) →
      align_features expected raw' = align_features expected raw) := by
  refine ⟨by simp [align_features_eq_map], fun i => by simp [align_features_eq_map], ?_⟩
  intro raw' hagree
  rw [align_features_eq_map, align_features_eq_map]
  exact List.map_congr_left fun n hn => by rw [hagree n hn]

/-- Witness for `claim_C6`: two raw maps with different key order and an extra
key agreeing on the expected names align identically. -/
theorem claim_C6_witness :
    align_features ["order_amount", "is_cod"]
        [("extra", (5:ℚ)), ("is_cod", 1), ("order_amount", 2)]
      = align_features ["order_amount", "is_cod"]
        [("order_amount", (2:ℚ)), ("is_cod", 1)] := by
  refine (claim_C6 ["order_amount", "is_cod"]
      [("order_amount", (2:ℚ)), ("is_cod", 1)]).2.2
      [("extra", (5:ℚ)), ("is_cod", 1), ("order_amount", 2)] ?_
  intro n hn
  simp only [List.mem_cons, List.not_mem_nil, or_false] at hn
  rcases hn with rfl | rfl <;> rfl

/-- Claim C7, counterexample: at threshold `t = 0.4` the confidence of
probability `0.0` is `0.4/0.6 = 2/3`, not `1.0` — the claim's
"confidence(0.0, t) = 1 for all t in (0,1)" fails. -/
theorem claim_C7_counterexample :
    (0 : ℚ) < 2/5 ∧ (2/5 : ℚ) < 1 ∧ _calculate_confidence 0 (2/5) = 2/3 ∧
    _calculate_confidence 0 (2/5) ≠ 1 := by
  refine ⟨by norm_num, by norm_num, ?_, ?_⟩ <;>
    rw [_calculate_confidence, zero_sub, abs_neg, abs_of_pos (by norm_num)] <;> norm_num

/-- Claim C7, amended: for every threshold `t` in (0,1), confidence is `0`
exactly at the decision boundary; at the extremes it is `t / max(t, 1−t)` at
probability `0` and `(1−t) / max(t, 1−t)` at probability `1` — the farther
extreme scores `1.0` (so the maximum of the two is always `1.0`), and both
extremes score `1.0` exactly when `t = 0.5`. -/
theorem claim_C7 (t : ℚ) (h0 : 0 < t) (h1 : t < 1) :
    _calculate_confidence t t = 0 ∧
    _calculate_confidence 0 t = t / max t (1 - t) ∧
    _calculate_confidence 1 t = (1 - t) / max t (1 - t) ∧
    max (_calculate_confidence 0 t) (_calculate_confidence 1 t) = 1 ∧
    ((_calculate_confidence 0 t = 1 ∧ _calculate_confidence 1 t = 1) ↔ t = 1/2) := by
  have ht1 : (0:ℚ) < 1 - t := by linarith
  have hc0 : _calculate_confidence 0 t = t / max t (1 - t) := by
    rw [_calculate_confidence, zero_sub, abs_neg, abs_of_pos h0]
  have hc1 : _calculate_confidence 1 t = (1 - t) / max t (1 - t) := by
    rw [_calculate_confidence, abs_of_pos ht1]
  have hmax : (0:ℚ) < max t (1 - t) := lt_max_iff.mpr (Or.inl h0)
  refine ⟨by simp [_calculate_confidence], hc0, hc1, ?_, ?_⟩
  · rw [hc0, hc1]
    rcases le_total t (1 - t) with h | h
    · rw [max_eq_right h, div_self (ne_of_gt ht1),
        max_eq_right ((div_le_one ht1).mpr h)]
    · rw [max_eq_left h, div_self (ne_of_gt h0),
        max_eq_left ((div_le_one h0).mpr h)]
  · rw [hc0, hc1, div_eq_one_iff_eq (ne_of_gt hmax), div_eq_one_iff_eq (ne_of_gt hmax)]
    constructor
    · rintro ⟨ha, hb⟩
      have h2 : t = 1 - t := ha.trans hb.symm
      linarith
    · intro ht
      subst ht
      norm_num

/-- Witness for `claim_C7` at `t = 1/2`. -/
theorem claim_C7_witness :
    (0:ℚ) < 1/2 ∧ (1/2:ℚ) < 1 ∧ _calculate_confidence (1/2) (1/2) = 0 :=
  ⟨by norm_num, by norm_num, (claim_C7 (1/2) (by norm_num) (by norm_num)).1⟩

/-! ## Dict lemmas

Facts about the CPython-dict embedding used by the store and feature-map
proofs. -/

/-- Unfolding of `dictSet` on a cons cell. -/
lemma dictSet_cons (p : String × α) (tl : List (String × α)) (k : String) (v : α) :
    dictSet (p :: tl) k v =
      if p.1 = k then (k, v) :: tl.map (fun q => if q.1 = k then (k, v) else q)
      else p :: dictSet tl k v := by
  by_cases hp : p.1 = k
  · simp [dictSet, containsKey, hp]
  · by_cases hc : (tl.any fun q => decide (q.1 = k)) = true
    · simp [dictSet, containsKey, hp, hc]
    · simp [dictSet, containsKey, hp, hc]

/-- In-place update at key `k` does not disturb lookups at other keys. -/
lemma dictGet_updMap (tl : List (String × α)) (k k' : String) (v : α) (h : k' ≠ k) :
    dictGet (tl.map (fun q => if q.1 = k then (k, v) else q)) k' = dictGet tl k' := by
  induction tl with
  | nil => simp [dictGet]
  | cons q tl ih =>
      by_cases hq : q.1 = k
      · simp [dictGet, hq, Ne.symm h, h] at ih ⊢
        simpa [dictGet] using ih
      · by_cases hq' : q.1 = k'
        · simp [dictGet, hq, hq', h]
        · simp [dictGet, hq, hq'] at ih ⊢
          simpa [dictGet] using ih

/-- After `d[k] = v`, looking up `k` yields `v`. -/
lemma dictGet_dictSet_self (d : List (String × α)) (k : String) (v : α) :
    dictGet (dictSet d k v) k = some v := by
  induction d with
  | nil => simp [dictSet, containsKey, dictGet]
  | cons p tl ih =>
      rw [dictSet_cons]
      by_cases hp : p.1 = k
      · simp [hp, dictGet]
      · simp only [if_neg hp]
        simpa [dictGet, hp] using ih

/-- After `d[k] = v`, lookups at other keys are unchanged. -/
lemma dictGet_dictSet_ne (d : List (String × α)) (k k' : String) (v : α)
    (h : k' ≠ k) : dictGet (dictSet d k v) k' = dictGet d k' := by
  induction d with
  | nil => simp [dictSet, containsKey, dictGet, Ne.symm h]
  | cons p tl ih =>
      rw [dictSet_cons]
      by_cases hp : p.1 = k
      · rw [if_pos hp]
        rw [show dictGet ((k, v) :: List.map (fun q => if q.1 = k then (k, v) else q) tl) k'
            = dictGet (List.map (fun q => if q.1 = k then (k, v) else q) tl) k' from by
          simp [dictGet, Ne.symm h]]
        rw [dictGet_updMap tl k k' v h]
        simp [dictGet, hp ▸ (Ne.symm h : k ≠ k')]
      · rw [if_neg hp]
        by_cases hp' : p.1 = k'
        · simp [dictGet, hp']
        · simp only [show dictGet (p :: dictSet tl k v) k'
              = dictGet (dictSet tl k v) k' from by simp [dictGet, hp'],
            show dictGet (p :: tl) k' = dictGet tl k' from by simp [dictGet, hp']]
          exact ih

/-- Key membership is definedness of lookup. -/
lemma containsKey_eq_isSome (d : List (String × α)) (k : String) :
    containsKey d k = (dictGet d k).isSome := by
  rw [containsKey, dictGet, Bool.eq_iff_iff]
  simp [List.any_eq_true, List.find?_isSome]

/-- Key membership after `d[k] = v`. -/
lemma containsKey_dictSet (d : List (String × α)) (k k' : String) (v : α) :
    containsKey (dictSet d k v) k' = (decide (k' = k) || containsKey d k') := by
  by_cases h : k' = k
  · subst h
    simp [containsKey_eq_isSome, dictGet_dictSet_self]
  · simp [containsKey_eq_isSome, dictGet_dictSet_ne d k k' v h, h]

/-! ## ArtifactStore / ModelManager (`utils/model_manager.py`)

The `versions/` directory is embedded as `ModelStore`: the `.joblib` binaries
keyed by version (`model_<version>.joblib`) and the JSON metadata sidecars
keyed by version (`model_<version>_meta.json`).  Sidecars are modelled by the
record `save_model` writes (well-formed JSON); `extra_metadata` is modelled as
a float-valued dict appended to the sidecar (extra keys shadowing the fixed
keys at model_manager.py:238-239 are not modelled; no claim concerns them).
`datetime.now(timezone.utc).isoformat()` at save time is the `trained_at`
argument. -/

/-- Embedding of Python's fixed-point float formatting `"%.ndf"`
(decimal round-half-even over the exact rational). -/
def fmtFixed (nd : ℕ) (q : ℚ) : String :=
  let c : ℤ := roundHalfEven (q * (10 : ℚ) ^ nd)
  let sign := if c < 0 then "-" else ""
  let n := c.natAbs
  let ip := n / 10 ^ nd
  let fracPart := n % 10 ^ nd
  let fracStr := toString fracPart
  let pad := String.mk (List.replicate (nd - fracStr.length) '0')
  sign ++ toString ip ++ "." ++ pad ++ fracStr

/-- The JSON metadata sidecar written by `save_model` (model_manager.py:230-239). -/
structure MetaSidecar where
  version : String := ""
  feature_names : List String := []
  metrics : List (String × ℚ) := []
  trained_at : String := ""
  training_samples : ℕ := 0
  feature_count : ℕ := 0
  extra : List (String × ℚ) := []
deriving DecidableEq

/-- On-disk state of the `versions/` directory. -/
structure ModelStore where
  modelFiles : List (String × MLModel) := []
  metaFiles : List (String × MetaSidecar) := []

/-- `get_model_metadata` (model_manager.py:134-140): raises `FileNotFoundError`
when the sidecar is absent. -/
def ModelStore.get_model_metadata (store : ModelStore) (version : String) :
    Except String MetaSidecar :=
  match dictGet store.metaFiles version with
  | some m => Except.ok m
  | none => Except.error ("Metadata not found for version " ++ version)

/-- `sorted(set(list(metrics_a.keys()) + list(metrics_b.keys())))` at
model_manager.py:169-170. -/
def sortedMetricKeys (ka kb : List String) : List String :=
  ((ka ++ kb).dedup).mergeSort (fun a b => decide (a ≤ b))

/-- One row of the per-metric comparison table (model_manager.py:173-178). -/
structure MetricComparison where
  version_a : ℚ
  version_b : ℚ
  diff : ℚ
  better : String
deriving DecidableEq

/-- The result dict of `compare_models` (model_manager.py:162-199);
`training_info` holds `(samples, trained_at)` for version a and b. -/
structure Comparison where
  version_a : String
  version_b : String
  primary_metric : String
  metrics : List (String × MetricComparison)
  winner : String
  winner_reason : String
  training_info : (ℕ × String) × (ℕ × String)
deriving DecidableEq

/-- `compare_models` (model_manager.py:146-205). -/
def ModelStore.compare_models (store : ModelStore)
    (version_a version_b : String) (primary_metric : String := "auc_roc") :
    Except String Comparison := do
  let meta_a ← store.get_model_metadata version_a
  let meta_b ← store.get_model_metadata version_b
  let metrics_a := meta_a.metrics
  let metrics_b := meta_b.metrics
  let table :=
    (sortedMetricKeys (metrics_a.map Prod.fst) (metrics_b.map Prod.fst)).map fun metric =>
      let val_a := (dictGet metrics_a metric).getD 0
      let val_b := (dictGet metrics_b metric).getD 0
      (metric,
        { version_a := val_a
          version_b := val_b
          diff := pyRound 6 (val_b - val_a)
          better := if val_b > val_a then "b" else if val_a > val_b then "a" else "tie"
          : MetricComparison })
  let pa := (dictGet metrics_a primary_metric).getD 0
  let pb := (dictGet metrics_b primary_metric).getD 0
  let winner := if pb ≥ pa then version_b else version_a
  Except.ok
    { version_a := version_a
      version_b := version_b
      primary_metric := primary_metric
      metrics := table
      winner := winner
      winner_reason := winner ++ " has better " ++ primary_metric ++ ": "
        ++ fmtFixed 4 (max pa pb) ++ " vs " ++ fmtFixed 4 (min pa pb)
      training_info := ((meta_a.training_samples, meta_a.trained_at),
                        (meta_b.training_samples, meta_b.trained_at)) }

/-- `list_versions` (model_manager.py:118-127): the glob `model_v*.joblib`
keeps exactly the versions starting with `"v"`; sorted newest-first
(descending lexicographic). -/
def ModelStore.list_versions (store : ModelStore) : List String :=
  (((store.modelFiles.map Prod.fst).filter (fun v => v.startsWith "v")).mergeSort
    (fun a b => decide (b ≤ a)))

/-- `get_latest_version` (model_manager.py:129-132). -/
def ModelStore.get_latest_version (store : ModelStore) : Option String :=
  store.list_versions.head?

/-- The body of `load_model` for a resolved version (model_manager.py:72-112):
missing model file raises; missing sidecar only logs a warning and yields an
artifact with default (empty) metadata. -/
def ModelStore.load_model_at (store : ModelStore) (version : String) :
    Except String ModelArtifact :=
  match dictGet store.modelFiles version with
  | none => Except.error ("Model file not found: model_" ++ version ++ ".joblib")
  | some model =>
      match dictGet store.metaFiles version with
      | some meta =>
          Except.ok
            { model := model
              version := version
              feature_names := meta.feature_names
              metrics := meta.metrics
              trained_at := meta.trained_at
              training_samples := meta.training_samples }
      | none =>
          Except.ok
            { model := model
              version := version
              feature_names := []
              metrics := []
              trained_at := ""
              training_samples := 0 }

/-- `load_model` (model_manager.py:62-112) including latest-version
resolution when no version is given. -/
def ModelStore.load_model (store : ModelStore) (version : Option String) :
    Except String ModelArtifact :=
  match version with
  | some v => store.load_model_at v
  | none =>
      match store.get_latest_version with
      | none => Except.error "No model versions found in versions dir"
      | some v => store.load_model_at v

/-- `save_model` (model_manager.py:207-245): writes the binary, then the
sidecar; returns the new store state and the model path. -/
def ModelStore.save_model (store : ModelStore) (model : MLModel) (version : String)
    (feature_names : List String) (metrics : List (String × ℚ))
    (training_samples : ℕ) (extra_metadata : List (String × ℚ))
    (trained_at : String) : ModelStore × String :=
  let store1 : ModelStore :=
    { store with modelFiles := dictSet store.modelFiles version model }
  let meta : MetaSidecar :=
    { version := version
      feature_names := feature_names
      metrics := metrics
      trained_at := trained_at
      training_samples := training_samples
      feature_count := feature_names.length
      extra := extra_metadata }
  let store2 : ModelStore :=
    { store1 with metaFiles := dictSet store1.metaFiles version meta }
  (store2, "model_" ++ version ++ ".joblib")

/-! ## Store claims -/

/-- Claim C2: for saved sidecars of versions `a` and `b` and any primary
metric, `compare_models` succeeds and declares `b` the winner whenever `b`'s
primary-metric value (0.0 when absent) is ≥ `a`'s — ties go to `b` — and
declares `a` the winner exactly when `a`'s value is strictly greater. -/
theorem claim_C2 (store : ModelStore) (va vb pm : String) (ma mb : MetaSidecar)
    (ha : dictGet store.metaFiles va = some ma)
    (hb : dictGet store.metaFiles vb = some mb) :
    ∃ cmp, store.compare_models va vb pm = Except.ok cmp ∧
      ((dictGet mb.metrics pm).getD 0 ≥ (dictGet ma.metrics pm).getD 0 →
          cmp.winner = vb) ∧
      ((dictGet ma.metrics pm).getD 0 > (dictGet mb.metrics pm).getD 0 →
          cmp.winner = va) ∧
      (va ≠ vb →
        (cmp.winner = va ↔
          (dictGet ma.metrics pm).getD 0 > (dictGet mb.metrics pm).getD 0)) := by
  obtain ⟨cmp, hcmp⟩ : ∃ cmp, store.compare_models va vb pm = Except.ok cmp := by
    rw [ModelStore.compare_models, ModelStore.get_model_metadata, ha,
      ModelStore.get_model_metadata, hb]
    exact ⟨_, rfl⟩
  have hw : cmp.winner =
      if (dictGet mb.metrics pm).getD 0 ≥ (dictGet ma.metrics pm).getD 0 then vb else va := by
    rw [ModelStore.compare_models, ModelStore.get_model_metadata, ha,
      ModelStore.get_model_metadata, hb] at hcmp
    injection hcmp with h
    subst h
    rfl
  refine ⟨cmp, hcmp, ?_, ?_, ?_⟩
  · intro h
    rw [hw, if_pos h]
  · intro h
    rw [hw, if_neg (not_le.mpr h)]
  · intro hne
    constructor
    · intro h
      by_contra hle
      rw [hw, if_pos (not_lt.mp hle)] at h
      exact hne h.symm
    · intro h
      rw [hw, if_neg (not_le.mpr h)]

/-- Champion sidecar for the C2 tie witness (`aucRoc = 0.9`). -/
def metaChampion : MetaSidecar :=
  { version := "v1", metrics := [("auc_roc", 9/10)], training_samples := 100 }

/-- Challenger sidecar for the C2 tie witness (`aucRoc = 0.9`, a tie). -/
def metaChallenger : MetaSidecar :=
  { version := "v2", metrics := [("auc_roc", 9/10)], training_samples := 120 }

/-- Store holding the two tied sidecars. -/
def storeTie : ModelStore :=
  { metaFiles := [("v1", metaChampion), ("v2", metaChallenger)] }

/-- Witness for `claim_C2`: on an exact `auc_roc` tie the challenger wins. -/
theorem claim_C2_witness :
    ∃ cmp, storeTie.compare_models "v1" "v2" "auc_roc" = Except.ok cmp ∧
      cmp.winner = "v2" := by
  obtain ⟨cmp, h1, h2, _, _⟩ :=
    claim_C2 storeTie "v1" "v2" "auc_roc" metaChampion metaChallenger rfl rfl
  exact ⟨cmp, h1, h2 (by norm_num [metaChampion, metaChallenger, dictGet])⟩

/-- Model binary used by the C5 partial-store state. -/
def mlHalf : MLModel := ⟨fun _ => [1/2, 1/2]⟩

/-- Store state after a crash between `save_model`'s two writes: the model
binary for `"v1"` exists, its metadata sidecar does not. -/
def storePartial : ModelStore := { modelFiles := [("v1", mlHalf)], metaFiles := [] }

/-- Claim C5, counterexample: on the partial store (model file present,
sidecar missing) `load_model "v1"` does **not** fail — it succeeds, so the
claimed "load_model of that version must fail" is false. -/
theorem claim_C5_counterexample :
    (storePartial.load_model (some "v1")).isOk = true := by
  rfl

/-- Claim C5, amended: `save_model` performs both writes, after which
`load_model` of that version succeeds with the saved metadata; but when the
model file exists without its sidecar, `load_model` does not fail cleanly — it
succeeds and returns a partially-readable artifact with empty
`feature_names`/`metrics`/`trained_at` and zero `training_samples`. -/
theorem claim_C5 (store : ModelStore) (v : String) (M : MLModel) :
    (dictGet store.modelFiles v = some M → dictGet store.metaFiles v = none →
      store.load_model (some v)
        = Except.ok { model := M, version := v, feature_names := [], metrics := [],
                      trained_at := "", training_samples := 0 }) ∧
    (∀ (fn : List String) (mets : List (String × ℚ)) (ts : ℕ)
        (extra : List (String × ℚ)) (ta : String),
      ((store.save_model M v fn mets ts extra ta).1).load_model (some v)
        = Except.ok { model := M, version := v, feature_names := fn, metrics := mets,
                      trained_at := ta, training_samples := ts }) := by
  constructor
  · intro hm hmeta
    rw [ModelStore.load_model, ModelStore.load_model_at, hm, hmeta]
  · intro fn mets ts extra ta
    rw [ModelStore.load_model, ModelStore.load_model_at, ModelStore.save_model]
    simp only [dictGet_dictSet_self]

/-- Witness for `claim_C5` on the concrete partial store. -/
theorem claim_C5_witness :
    storePartial.load_model (some "v1")
      = Except.ok { model := mlHalf, version := "v1", feature_names := [],
                    metrics := [], trained_at := "", training_samples := 0 } :=
  (claim_C5 storePartial "v1" mlHalf).1 rfl rfl

/-! ## DriftDetector (`pipeline/drift_detector.py`)

Only `check_performance_drift` is embedded (claim C8).  `check_feature_drift`
draws random normal samples and calls scipy's KS test, an external statistical
collaborator, and is consumed by the scheduler claims only through its boolean
verdict.  The input frame is a list of `(predicted_rto, actual_rto)` integer
rows; the missing-column early return (drift_detector.py:161-164) is outside
this embedding because the row type already carries both columns. -/

/-- Configuration fields of `DriftDetector.__init__` (drift_detector.py:58-70). -/
structure DriftDetector where
  ks_threshold : ℚ := 1/10
  mean_shift_threshold : ℚ := 2
  min_samples : ℕ := 100
  precision_floor : ℚ := 3/5
  recall_floor : ℚ := 1/2
deriving DecidableEq

/-- One entry of `DriftReport.drifted_features` (drift_detector.py:129-136);
populated only by the unembedded feature-drift check. -/
structure DriftedFeatureRecord where
  feature : String
  ks_statistic : ℚ
  ks_pvalue : ℚ
  mean_shift_std : ℚ
  current_mean : ℚ
  baseline_mean : ℚ
deriving DecidableEq

/-- The `performance_metrics` dict (drift_detector.py:185-191).  The Python
keys `recall` and `fn` are Lean keywords; they are the fields `recl` and
`fneg`. -/
structure PerfMetrics where
  precision : ℚ
  recl : ℚ
  accuracy : ℚ
  tp : ℕ
  fp : ℕ
  fneg : ℕ
  tn : ℕ
  total_predictions : ℕ
deriving DecidableEq

/-- The `DriftReport` dataclass (drift_detector.py:31-52); the empty
`performance_metrics` dict is `none`. -/
structure DriftReport where
  checked_at : ℤ
  feature_drift_detected : Bool := false
  performance_drift_detected : Bool := false
  drifted_features : List DriftedFeatureRecord := []
  performance_metrics : Option PerfMetrics := none
  should_retrain : Bool := false
  reasons : List String := []
deriving DecidableEq

/-- Embedding of Python's percent formatting `f"{q:.2%}"`. -/
def fmtPct (q : ℚ) : String := fmtFixed 2 (q * 100) ++ "%"

/-- True positives: `((y_pred == 1) & (y_true == 1)).sum()` (drift_detector.py:176). -/
def tp_of (predictions : List (ℤ × ℤ)) : ℕ :=
  predictions.countP (fun r => r.1 == 1 && r.2 == 1)

/-- False positives (drift_detector.py:177). -/
def fp_of (predictions : List (ℤ × ℤ)) : ℕ :=
  predictions.countP (fun r => r.1 == 1 && r.2 == 0)

/-- False negatives (drift_detector.py:178). -/
def fn_of (predictions : List (ℤ × ℤ)) : ℕ :=
  predictions.countP (fun r => r.1 == 0 && r.2 == 1)

/-- True negatives (drift_detector.py:179). -/
def tn_of (predictions : List (ℤ × ℤ)) : ℕ :=
  predictions.countP (fun r => r.1 == 0 && r.2 == 0)

/-- `precision = tp / max(tp + fp, 1)` (drift_detector.py:181). -/
def precision_of (predictions : List (ℤ × ℤ)) : ℚ :=
  (tp_of predictions : ℚ) / ((max (tp_of predictions + fp_of predictions) 1 : ℕ) : ℚ)

/-- `recall = tp / max(tp + fn, 1)` (drift_detector.py:182). -/
def recall_of (predictions : List (ℤ × ℤ)) : ℚ :=
  (tp_of predictions : ℚ) / ((max (tp_of predictions + fn_of predictions) 1 : ℕ) : ℚ)

/-- `accuracy = (tp + tn) / max(len(y_true), 1)` (drift_detector.py:183). -/
def accuracy_of (predictions : List (ℤ × ℤ)) : ℚ :=
  ((tp_of predictions + tn_of predictions : ℕ) : ℚ)
    / ((max predictions.length 1 : ℕ) : ℚ)

/-- `check_performance_drift` (drift_detector.py:149-207). -/
def DriftDetector.check_performance_drift (self : DriftDetector)
    (predictions : List (ℤ × ℤ)) (now : ℤ) : DriftReport :=
  if predictions.length < self.min_samples then
    { checked_at := now
      reasons := ["Not enough predictions (" ++ toString predictions.length
        ++ ", need " ++ toString self.min_samples ++ ")"] }
  else
    let prec := precision_of predictions
    let recl := recall_of predictions
    let pd := decide (prec < self.precision_floor)
    let rd := decide (recl < self.recall_floor)
    { checked_at := now
      performance_drift_detected := pd || rd
      should_retrain := pd || rd
      performance_metrics := some
        { precision := pyRound 4 prec
          recl := pyRound 4 recl
          accuracy := pyRound 4 (accuracy_of predictions)
          tp := tp_of predictions
          fp := fp_of predictions
          fneg := fn_of predictions
          tn := tn_of predictions
          total_predictions := predictions.length }
      reasons :=
        (if pd then
          ["Precision (" ++ fmtPct prec ++ ") below floor ("
            ++ fmtPct self.precision_floor ++ ")"] else [])
        ++ (if rd then
          ["Recall (" ++ fmtPct recl ++ ") below floor ("
            ++ fmtPct self.recall_floor ++ ")"] else []) }

/-- Claim C8: on a predictions set meeting the minimum sample count,
`check_performance_drift` sets both `performance_drift_detected` and
`should_retrain` to true if precision is below the precision floor or recall
below the recall floor — each alone suffices — and leaves both false when
neither floor is crossed. -/
theorem claim_C8 (cfg : DriftDetector) (predictions : List (ℤ × ℤ)) (now : ℤ)
    (hlen : predictions.length ≥ cfg.min_samples) :
    ((precision_of predictions < cfg.precision_floor ∨
      recall_of predictions < cfg.recall_floor) →
        (cfg.check_performance_drift predictions now).performance_drift_detected = true ∧
        (cfg.check_performance_drift predictions now).should_retrain = true) ∧
    (¬ precision_of predictions < cfg.precision_floor →
     ¬ recall_of predictions < cfg.recall_floor →
        (cfg.check_performance_drift predictions now).performance_drift_detected = false ∧
        (cfg.check_performance_drift predictions now).should_retrain = false) := by
  rw [DriftDetector.check_performance_drift, if_neg (not_lt.mpr hlen)]
  constructor
  · intro h
    rcases h with h | h <;> simp [h]
  · intro h1 h2
    simp [h1, h2]

set_option maxRecDepth 8000 in
/-- Witness for `claim_C8`: 100 all-correct positive predictions — precision
and recall are 1, no floor crossed, no drift flagged. -/
theorem claim_C8_witness :
    (List.replicate 100 ((1:ℤ), (1:ℤ))).length ≥ ({} : DriftDetector).min_samples ∧
    (({} : DriftDetector).check_performance_drift
        (List.replicate 100 ((1:ℤ), (1:ℤ))) 0).performance_drift_detected = false := by
  have hlen : (List.replicate 100 ((1:ℤ), (1:ℤ))).length
      ≥ ({} : DriftDetector).min_samples := by
    simp
  have htp : tp_of (List.replicate 100 ((1:ℤ), (1:ℤ))) = 100 := by decide
  have hfp : fp_of (List.replicate 100 ((1:ℤ), (1:ℤ))) = 0 := by decide
  have hfn : fn_of (List.replicate 100 ((1:ℤ), (1:ℤ))) = 0 := by decide
  have hprec : precision_of (List.replicate 100 ((1:ℤ), (1:ℤ))) = 1 := by
    rw [precision_of, htp, hfp]
    norm_num [Nat.max_def]
  have hrecl : recall_of (List.replicate 100 ((1:ℤ), (1:ℤ))) = 1 := by
    rw [recall_of, htp, hfn]
    norm_num [Nat.max_def]
  refine ⟨hlen, ?_⟩
  refine ((claim_C8 {} (List.replicate 100 ((1:ℤ), (1:ℤ))) 0 hlen).2 ?_ ?_).1
  · rw [hprec]
    norm_num
  · rw [hrecl]
    norm_num

/-! ## FeatureSchema (`pipeline/feature_map.py`) -/

/-- `FEATURE_NAMES` (feature_map.py:28-80): the canonical 48 features,
`sorted(...)` alphabetically; the literal list is in source order. -/
def FEATURE_NAMES : List String :=
  List.mergeSort [
    "order_amount",
    "order_item_count",
    "is_cod",
    "is_prepaid",
    "order_hour",
    "is_weekend",
    "is_night_order",
    "customer_order_count",
    "customer_rto_rate",
    "customer_cancel_rate",
    "customer_avg_order_value",
    "customer_account_age_days",
    "customer_distinct_cities",
    "customer_distinct_phones",
    "customer_address_changes",
    "city_rto_rate",
    "city_order_volume",
    "city_avg_delivery_days",
    "product_rto_rate",
    "product_category_rto_rate",
    "product_price_vs_avg",
    "is_high_value_order",
    "amount_zscore",
    "phone_verified",
    "email_verified",
    "address_quality_score",
    "shipping_distance_km",
    "same_city_shipping",
    "discount_percentage",
    "is_first_order",
    "is_repeat_customer",
    "days_since_last_order",
    "cod_first_order",
    "high_value_cod_first",
    "phone_risk_score",
    "orders_last_24h",
    "orders_last_7d",
    "customer_lifetime_value",
    "amount_vs_customer_avg",
    "is_new_account",
    "new_account_high_value",
    "new_account_cod",
    "orders_last_1h",
    "is_eid_period",
    "is_ramadan",
    "is_sale_period",
    "is_high_discount",
    "avg_days_between_orders"] (fun a b => decide (a ≤ b))

/-- `BACKEND_TO_ML_MAP` (feature_map.py:169-180): producer-side names to
canonical names. -/
def BACKEND_TO_ML_MAP : List (String × String) := [
  ("phone_valid",            "phone_verified"),
  ("phone_order_count",      "customer_order_count"),
  ("phone_rto_rate",         "customer_rto_rate"),
  ("phone_age_days",         "customer_account_age_days"),
  ("phone_unique_addresses", "customer_distinct_cities"),
  ("items_count",            "order_item_count"),
  ("is_high_value",          "is_high_value_order"),
  ("previous_order_count",   "customer_order_count"),
  ("address_order_count",    "city_order_volume")]

/-- `FEATURE_DEFAULTS` (feature_map.py:183-217): per-feature default values. -/
def FEATURE_DEFAULTS : List (String × ℚ) := [
  ("customer_cancel_rate", 0),
  ("customer_avg_order_value", 0),
  ("customer_distinct_phones", 1),
  ("customer_address_changes", 0),
  ("city_rto_rate", 28/100),
  ("city_order_volume", 400),
  ("city_avg_delivery_days", 35/10),
  ("product_rto_rate", 25/100),
  ("product_category_rto_rate", 25/100),
  ("product_price_vs_avg", 1),
  ("amount_zscore", 0),
  ("email_verified", 0),
  ("address_quality_score", 5/10),
  ("shipping_distance_km", 200),
  ("same_city_shipping", 0),
  ("discount_percentage", 0),
  ("is_prepaid", 0),
  ("orders_last_24h", 0),
  ("orders_last_7d", 0),
  ("customer_lifetime_value", 0),
  ("amount_vs_customer_avg", 1),
  ("is_new_account", 0),
  ("new_account_high_value", 0),
  ("new_account_cod", 0),
  ("orders_last_1h", 0),
  ("is_eid_period", 0),
  ("is_ramadan", 0),
  ("is_sale_period", 0),
  ("is_high_discount", 0),
  ("avg_days_between_orders", 999)]

/-- The renaming loop of `map_backend_features` (feature_map.py:228-230):
producer keys renamed via `BACKEND_TO_ML_MAP` (unknown keys kept), inserted in
iteration order into a fresh dict. -/
def mapProducerNames (backend_features : List (String × ℚ)) : List (String × ℚ) :=
  backend_features.foldl
    (fun acc p => dictSet acc ((dictGet BACKEND_TO_ML_MAP p.1).getD p.1) p.2) []

/-- The default-filling loop of `map_backend_features` (feature_map.py:233-235). -/
def fillDefaults (dflt : String → ℚ) (names : List String)
    (acc : List (String × ℚ)) : List (String × ℚ) :=
  names.foldl
    (fun acc feat =>
      if containsKey acc feat then acc else dictSet acc feat (dflt feat)) acc

/-- `FEATURE_DEFAULTS.get(feat, 0.0)` (feature_map.py:235). -/
def featureDefaultOf (feat : String) : ℚ := (dictGet FEATURE_DEFAULTS feat).getD 0

/-- `map_backend_features` (feature_map.py:220-237). -/
def map_backend_features (backend_features : List (String × ℚ)) :
    List (String × ℚ) :=
  fillDefaults featureDefaultOf FEATURE_NAMES (mapProducerNames backend_features)

/-- Keys already present survive the default-filling loop. -/
lemma containsKey_fillDefaults_of_contains (dflt : String → ℚ) (names : List String)
    (acc : List (String × ℚ)) (f : String) (hf : containsKey acc f = true) :
    containsKey (fillDefaults dflt names acc) f = true := by
  induction names generalizing acc with
  | nil => simpa [fillDefaults] using hf
  | cons x xs ih =>
      simp only [fillDefaults, List.foldl_cons]
      by_cases hc : containsKey acc x = true
      · rw [if_pos hc]
        exact ih acc hf
      · rw [if_neg hc]
        exact ih _ (by rw [containsKey_dictSet, hf, Bool.or_true])

/-- Every listed name is a key after the default-filling loop. -/
lemma containsKey_fillDefaults_of_mem (dflt : String → ℚ) (names : List String)
    (acc : List (String × ℚ)) (f : String) (hf : f ∈ names) :
    containsKey (fillDefaults dflt names acc) f = true := by
  induction names generalizing acc with
  | nil => simp at hf
  | cons x xs ih =>
      simp only [fillDefaults, List.foldl_cons]
      rcases List.mem_cons.mp hf with rfl | hmem
      · by_cases hc : containsKey acc f = true
        · rw [if_pos hc]
          exact containsKey_fillDefaults_of_contains dflt xs acc f hc
        · rw [if_neg hc]
          exact containsKey_fillDefaults_of_contains dflt xs _ f
            (by rw [containsKey_dictSet]; simp)
      · by_cases hc : containsKey acc x = true
        · rw [if_pos hc]
          exact ih _ hmem
        · rw [if_neg hc]
          exact ih _ hmem

/-- The default-filling loop never overwrites an existing binding. -/
lemma dictGet_fillDefaults_of_contains (dflt : String → ℚ) (names : List String)
    (acc : List (String × ℚ)) (f : String) (hf : containsKey acc f = true) :
    dictGet (fillDefaults dflt names acc) f = dictGet acc f := by
  induction names generalizing acc with
  | nil => simp [fillDefaults]
  | cons x xs ih =>
      simp only [fillDefaults, List.foldl_cons]
      by_cases hc : containsKey acc x = true
      · rw [if_pos hc]
        exact ih acc hf
      · rw [if_neg hc]
        have hxf : f ≠ x := by
          intro h
          rw [h] at hf
          exact hc hf
        have h2 := ih (dictSet acc x (dflt x))
          (by rw [containsKey_dictSet, hf, Bool.or_true])
        exact h2.trans (dictGet_dictSet_ne acc x f (dflt x) hxf)

/-- A listed name absent from the input dict comes out of the default-filling
loop bound to its default. -/
lemma dictGet_fillDefaults_of_not_contains (dflt : String → ℚ) (names : List String)
    (acc : List (String × ℚ)) (f : String) (hnd : names.Nodup) (hmem : f ∈ names)
    (hnc : containsKey acc f = false) :
    dictGet (fillDefaults dflt names acc) f = some (dflt f) := by
  induction names generalizing acc with
  | nil => simp at hmem
  | cons x xs ih =>
      simp only [fillDefaults, List.foldl_cons]
      rcases List.mem_cons.mp hmem with rfl | hmem'
      · rw [if_neg (by rw [hnc]; exact Bool.false_ne_true)]
        have h1 : containsKey (dictSet acc f (dflt f)) f = true := by
          rw [containsKey_dictSet]
          simp
        have h2 := dictGet_fillDefaults_of_contains dflt xs (dictSet acc f (dflt f)) f h1
        exact h2.trans (dictGet_dictSet_self acc f (dflt f))
      · have hfx : f ≠ x := by
          intro h
          rw [h] at hmem'
          exact (List.nodup_cons.mp hnd).1 hmem'
        have hnd' := (List.nodup_cons.mp hnd).2
        by_cases hc : containsKey acc x = true
        · rw [if_pos hc]
          exact ih _ hnd' hmem' hnc
        · rw [if_neg hc]
          refine ih _ hnd' hmem' ?_
          rw [containsKey_dictSet, hnc]
          simp [hfx]

set_option maxRecDepth 4000 in
/-- The 48 canonical feature names are pairwise distinct. -/
lemma FEATURE_NAMES_nodup : FEATURE_NAMES.Nodup := by
  rw [FEATURE_NAMES]
  exact (List.mergeSort_perm _ _).nodup_iff.mpr (by decide)

set_option maxRecDepth 4000 in
/-- The canonical name used to exhibit a non-zero default. -/
lemma city_rto_rate_mem : "city_rto_rate" ∈ FEATURE_NAMES := by
  rw [FEATURE_NAMES]
  exact (List.mergeSort_perm _ _).mem_iff.mpr (by decide)

/-- Claim C10: for every backend feature map, the output of
`map_backend_features` has every canonical name among its keys; a canonical
name absent after renaming is bound to `FEATURE_DEFAULTS.get(name, 0.0)` — the
per-feature default table, whose entries are not a blanket `0.0`
(e.g. `city_rto_rate ↦ 0.28`) — and a canonical name present after renaming
keeps its renamed value; hence no canonical feature is silently dropped. -/
theorem claim_C10 (backend : List (String × ℚ)) :
    (∀ f ∈ FEATURE_NAMES, containsKey (map_backend_features backend) f = true) ∧
    (∀ f ∈ FEATURE_NAMES, containsKey (mapProducerNames backend) f = false →
        dictGet (map_backend_features backend) f
          = some ((dictGet FEATURE_DEFAULTS f).getD 0)) ∧
    (∀ f, containsKey (mapProducerNames backend) f = true →
        dictGet (map_backend_features backend) f = dictGet (mapProducerNames backend) f) ∧
    featureDefaultOf "city_rto_rate" = 28/100 ∧ (28/100 : ℚ) ≠ 0 := by
  refine ⟨?_, ?_, ?_, ?_, by norm_num⟩
  · intro f hf
    exact containsKey_fillDefaults_of_mem _ _ _ f hf
  · intro f hf hnc
    exact dictGet_fillDefaults_of_not_contains _ _ _ f FEATURE_NAMES_nodup hf hnc
  · intro f hf
    exact dictGet_fillDefaults_of_contains _ _ _ f hf
  · rfl

/-- Witness for `claim_C10`: `city_rto_rate` is canonical, and on the empty
backend map it is filled with its per-feature default 0.28, not 0.0. -/
theorem claim_C10_witness :
    "city_rto_rate" ∈ FEATURE_NAMES ∧
    dictGet (map_backend_features []) "city_rto_rate" = some (28/100) := by
  refine ⟨city_rto_rate_mem, ?_⟩
  have h := (claim_C10 []).2.1 "city_rto_rate" city_rto_rate_mem rfl
  rw [h]
  rfl
